import Mathlib

/-!
Verification of the RTSP control-plane core (`rtsp.c`) of an AirPlay-1 audio
receiver.  The definitions below are shallow embeddings of the C functions:
pure data transformations become Lean functions, mutable state becomes
explicit state passing, blocking reads become explicit event traces, and
external collaborators (RSA, base64, the RTP module) become function
parameters or spec-modelled definitions.
-/

namespace Rtsp

/-- Code `EWOULDBLOCK` as returned by `pc_queue_add_item` when the queue is full
(the Linux value, equal to `EAGAIN`). -/
def EWOULDBLOCK : Nat := 11

/-! ## Producer/consumer queue (`pc_queue`, rtsp.c lines 113-331)

The C struct holds a mutex, two condition variables, a name, the item size and
the ring-buffer bookkeeping.  The lock and condition variables serialise the
operations; in this sequential model an operation is one atomic step, so only
the bookkeeping fields remain.  The backing store `items` is modelled as a
total function from slot index to item. -/

structure pc_queue (α : Type) where
  count : Nat
  capacity : Nat
  toq : Nat
  eoq : Nat
  items : Nat → α

/-- Function `pc_queue_init` (rtsp.c lines 159-177): zero count and pointers. -/
def pc_queue_init (capacity : Nat) (init : α) : pc_queue α :=
  { count := 0, capacity := capacity, toq := 0, eoq := 0, items := fun _ => init }

/-- Function `pc_queue_add_item` (rtsp.c lines 212-283).  If the queue is not full,
memcpy the item into the slot at `eoq`, advance `eoq` with wraparound and
increment `count`, returning 0; otherwise return `EWOULDBLOCK` at once,
leaving the queue untouched.  (The commented-out wait-on-full loop in the C
source is deliberately absent: a full queue never blocks the producer.) -/
def pc_queue_add_item (q : pc_queue α) (the_stuff : α) : pc_queue α × Nat :=
  if q.count < q.capacity then
    let i := q.eoq
    let stored := fun j => if j = i then the_stuff else q.items j
    let i2 := i + 1
    let folded := if i2 = q.capacity then 0 else i2
    ({ q with items := stored, eoq := folded, count := q.count + 1 }, 0)
  else
    (q, EWOULDBLOCK)

/-- Function `pc_queue_get_item` (rtsp.c lines 285-331).  The consumer waits on the
item-added condition variable while the queue is empty; in the sequential
model that blocked state is `none`.  Otherwise memcpy the item at `toq` out,
advance `toq` with wraparound and decrement `count`. -/
def pc_queue_get_item (q : pc_queue α) : Option (α × pc_queue α) :=
  if q.count = 0 then
    none
  else
    let i := q.toq
    let x := q.items i
    let i2 := i + 1
    let folded := if i2 = q.capacity then 0 else i2
    some (x, { q with toq := folded, count := q.count - 1 })

/-- One queue operation: a producer add or a consumer take. -/
inductive QOp (α : Type) where
  | add (x : α)
  | take

/-- Run a sequence of queue operations.  A take on an empty queue blocks, so
it leaves the state unchanged in this model. -/
def run_queue_ops (q : pc_queue α) : List (QOp α) → pc_queue α
  | [] => q
  | QOp.add x :: rest => run_queue_ops (pc_queue_add_item q x).1 rest
  | QOp.take :: rest =>
      match pc_queue_get_item q with
      | none => run_queue_ops q rest
      | some (_, q2) => run_queue_ops q2 rest

/-- The ring-buffer invariant: occupancy within `[0, capacity]` and both
pointers strictly below `capacity`. -/
def queue_inv (q : pc_queue α) : Prop :=
  q.count ≤ q.capacity ∧ q.toq < q.capacity ∧ q.eoq < q.capacity

instance (q : pc_queue α) : Decidable (queue_inv q) := by
  unfold queue_inv; infer_instance

/-! ## Metadata fan-out (`send_metadata_to_queue`, `send_metadata`,
`handle_set_parameter`, rtsp.c lines 2101-2360)

A `metadata_package` carries a four-byte type, a four-byte code, a payload
pointer (here: whether one is present and its length) and an optional carrier
`rtsp_message`.  Reference counting of the carrier and the lifetime of copied
payloads are the observable effects; they are tracked in `RefState`. -/

/-- Pack a four-character constant such as the C multi-character literal
`'ssnc'` into its numeric value. -/
def fourcc (s : String) : Nat :=
  s.toList.foldl (fun acc c => acc * 256 + c.toNat) 0

/-- The package placed on each metadata queue (rtsp.c lines 150-157).  The
payload bytes themselves are irrelevant to the lifetime argument, so only
their presence and length are kept. -/
structure metadata_package where
  mtype : Nat
  code : Nat
  hasData : Bool
  length : Nat
  hasCarrier : Bool

/-- The lifetime-relevant state outside the queues: the carrier message's
reference count (mutated under `reference_counter_lock` by `msg_retain` and
`msg_free`) and the number of live buffers created by `memdup`. -/
structure RefState where
  rc : Nat
  allocs : Nat

/-- Function `send_metadata_to_queue` (rtsp.c lines 2101-2174).  If a carrier message
is supplied it is retained; otherwise, if a data pointer is supplied, the
data is copied with `memdup`.  The package is then enqueued; if the enqueue
fails, the just-taken retain is released (`msg_free`) or the just-taken copy
is freed, and the queue's error code is returned as is. -/
def send_metadata_to_queue (q : pc_queue metadata_package) (r : RefState)
    (mtype code : Nat) (hasData : Bool) (length : Nat) (hasCarrier : Bool) :
    pc_queue metadata_package × RefState × Nat :=
  let pack : metadata_package :=
    { mtype := mtype, code := code, hasData := hasData, length := length,
      hasCarrier := hasCarrier }
  let r1 :=
    if hasCarrier then { r with rc := r.rc + 1 }
    else if hasData then { r with allocs := r.allocs + 1 }
    else r
  let qrc := pc_queue_add_item q pack
  if qrc.2 ≠ 0 then
    if hasCarrier then (qrc.1, { r1 with rc := r1.rc - 1 }, qrc.2)
    else if hasData then (qrc.1, { r1 with allocs := r1.allocs - 1 }, qrc.2)
    else (qrc.1, r1, qrc.2)
  else (qrc.1, r1, qrc.2)

/-- Process-wide metadata state: the pipe and multicast sink queues (the hub
and MQTT queues are conditionally compiled and absent from this build),
the shared reference-count state and the `metadata_enabled` configuration
flag. -/
structure MetadataWorld where
  pipeq : pc_queue metadata_package
  mcastq : pc_queue metadata_package
  refs : RefState
  metadata_enabled : Bool

/-- Function `send_metadata` (rtsp.c lines 2176-2197): fan one package into each
enabled sink queue; the returned code is the last enqueue's code (or 0 when
metadata is disabled, in which case the C `rc` is uninitialised and is never
examined by any caller). -/
def send_metadata (w : MetadataWorld) (mtype code : Nat) (hasData : Bool)
    (length : Nat) (hasCarrier : Bool) : MetadataWorld × Nat :=
  if w.metadata_enabled then
    let s1 := send_metadata_to_queue w.pipeq w.refs mtype code hasData length hasCarrier
    let s2 := send_metadata_to_queue w.mcastq s1.2.1 mtype code hasData length hasCarrier
    ({ w with pipeq := s1.1, mcastq := s2.1, refs := s2.2.1 }, s2.2.2)
  else
    (w, 0)

/-- Read a big-endian 32-bit integer from a byte list at an offset, as the
`memcpy`/`ntohl` pair does; bytes past the end of the buffer read as 0. -/
def be32_at (bytes : List Nat) (off : Nat) : Nat :=
  bytes.getD off 0 * 2 ^ 24 + bytes.getD (off + 1) 0 * 2 ^ 16 +
    bytes.getD (off + 2) 0 * 2 ^ 8 + bytes.getD (off + 3) 0

/-- The tag loop of `handle_set_parameter_metadata` (rtsp.c lines 2199-2229):
starting at offset 8, read (tag, length) pairs and forward each tuple as
`'core'` metadata; a zero-length value is sent without data or carrier, a
non-empty one points into the request and is sent with the request as
carrier. -/
def set_parameter_metadata_loop (w : MetadataWorld) (bytes : List Nat)
    (off cl : Nat) : MetadataWorld :=
  if h : off < cl then
    let itag := be32_at bytes off
    let vl := be32_at bytes (off + 4)
    let w2 :=
      if vl = 0 then (send_metadata w (fourcc "core") itag false 0 false).1
      else (send_metadata w (fourcc "core") itag true vl true).1
    set_parameter_metadata_loop w2 bytes (off + 4 + 4 + vl) cl
  else w
termination_by cl - off
decreasing_by omega

/-- Function `handle_set_parameter_metadata` (rtsp.c lines 2199-2229). -/
def handle_set_parameter_metadata (w : MetadataWorld) (bytes : List Nat) :
    MetadataWorld :=
  set_parameter_metadata_loop w bytes 8 bytes.length

/-- Function `handle_set_parameter` (rtsp.c lines 2260-2360), restricted to its
metadata-emitting effects.  `rtptime` is the parsed `rtptime=` tail of the
`RTP-Info` header (with its length), `get_coverart` is the configuration
flag.  The `text/parameters` branch adjusts the player volume or sends a
`'prgr'` progress event; the external `player_volume` call has no effect on
the metadata state.  Whatever happens, the handler finishes by setting the
response code to 200. -/
def handle_set_parameter (w : MetadataWorld) (contentType : Option String)
    (body : List Nat) (rtptime : Option Nat) (get_coverart : Bool)
    (progressLen : Option Nat) : MetadataWorld × Nat :=
  let w2 :=
    match contentType with
    | none => w
    | some ct =>
        if ct.startsWith "application/x-dmap-tagged" then
          let wa :=
            match rtptime with
            | some n => (send_metadata w (fourcc "ssnc") (fourcc "mdst") true n true).1
            | none => (send_metadata w (fourcc "ssnc") (fourcc "mdst") false 0 false).1
          let wb := handle_set_parameter_metadata wa body
          match rtptime with
          | some n => (send_metadata wb (fourcc "ssnc") (fourcc "mden") true n true).1
          | none => (send_metadata wb (fourcc "ssnc") (fourcc "mden") false 0 false).1
        else if ct.startsWith "image" then
          if get_coverart then
            let wa :=
              match rtptime with
              | some n => (send_metadata w (fourcc "ssnc") (fourcc "pcst") true n true).1
              | none => (send_metadata w (fourcc "ssnc") (fourcc "pcst") false 0 false).1
            let wb := (send_metadata wa (fourcc "ssnc") (fourcc "PICT") true body.length true).1
            match rtptime with
            | some n => (send_metadata wb (fourcc "ssnc") (fourcc "pcen") true n true).1
            | none => (send_metadata wb (fourcc "ssnc") (fourcc "pcen") false 0 false).1
          else w
        else if ct.startsWith "text/parameters" then
          match progressLen with
          | some n => (send_metadata w (fourcc "ssnc") (fourcc "prgr") true n false).1
          | none => w
        else w
  (w2, 200)

/-! ## C string helpers

`atoi`, `strstr`, `strtok_r`, `strsep` and the line splitter `nextline`,
embedded over `List Char`. -/

/-- The characters C's `isspace` accepts (space and `\t`..`\r`). -/
def isCWhitespace (c : Char) : Bool :=
  c == ' ' || (9 ≤ c.toNat && c.toNat ≤ 13)

/-- Accumulate leading decimal digits, as the digit loop of `atoi` does. -/
def c_atoi_digits : List Char → Nat → Nat
  | [], acc => acc
  | c :: rest, acc =>
      if c.isDigit then c_atoi_digits rest (acc * 10 + (c.toNat - 48)) else acc

/-- C `atoi`: skip whitespace, optional sign, then leading digits (zero when
there are none). -/
def c_atoi (l : List Char) : Int :=
  let l1 := l.dropWhile isCWhitespace
  match l1 with
  | '-' :: rest => -(c_atoi_digits rest 0 : Int)
  | '+' :: rest => (c_atoi_digits rest 0 : Int)
  | _ => (c_atoi_digits l1 0 : Int)

/-- C `strstr`: the suffix of the haystack starting at the first occurrence
of the pattern, or `none`. -/
def c_strstr (pat : List Char) : List Char → Option (List Char)
  | [] => if pat.isPrefixOf ([] : List Char) then some [] else none
  | c :: t =>
      if pat.isPrefixOf (c :: t) then some (c :: t) else c_strstr pat t

/-- Split a list at the first occurrence of a pattern, returning the part
before it and the part after it (`strstr` followed by `*p = 0; p += 2` in
`msg_handle_line`). -/
def split_at_first (pat : List Char) : List Char → Option (List Char × List Char)
  | [] => if pat.isPrefixOf ([] : List Char) then some ([], []) else none
  | c :: t =>
      if pat.isPrefixOf (c :: t) then some ([], (c :: t).drop pat.length)
      else
        match split_at_first pat t with
        | none => none
        | some (a, b) => some (c :: a, b)

/-- The `strtok_r` token sequence: maximal non-empty runs of non-delimiter
characters, leading delimiters skipped.  The fuel is the input length, which
bounds the number of tokens. -/
def tokenize_aux (delims : List Char) : Nat → List Char → List (List Char)
  | 0, _ => []
  | fuel + 1, l =>
      match l.dropWhile (fun ch => delims.contains ch) with
      | [] => []
      | c :: t =>
          (c :: t).takeWhile (fun ch => !(delims.contains ch)) ::
            tokenize_aux delims fuel ((c :: t).dropWhile (fun ch => !(delims.contains ch)))

/-- Tokenising a whole string with `strtok_r`. -/
def tokenize (delims : List Char) (l : List Char) : List (List Char) :=
  tokenize_aux delims (l.length + 1) l

/-- The token sequence produced by repeated `strsep(&p, " \t")` calls: the
string is cut at every single space or tab, and empty fields are kept. -/
def strsep_tokens (s : List Char) : List (List Char) :=
  List.splitOnP (fun c => c == ' ' || c == '\t') s

/-- Function `nextline` (rtsp.c lines 505-532): find the first `\r`, `\n` or `\r\n`,
park a NUL over it (here: cut the list), and return the line together with
the rest of the buffer; `none` when no terminator is present. -/
def nextline : List Char → Option (List Char × List Char)
  | [] => none
  | c :: rest =>
      if c = '\r' then
        match rest with
        | '\n' :: rest2 => some ([], rest2)
        | _ => some ([], rest)
      else if c = '\n' then some ([], rest)
      else
        match nextline rest with
        | none => none
        | some (line, rem) => some (c :: line, rem)

/-! ## Message codec (`rtsp_message`, `msg_handle_line`, rtsp.c lines
131-147, 556-749)

The reference count, the index number and the mutexes play no role in the
parsing claims; the structural content of a message is its method, headers,
body and response code. -/

/-- The parsed `rtsp_message` (rtsp.c lines 131-147). -/
structure rtsp_message_m where
  headers : List (List Char × List Char)
  method : List Char
  contentlength : Int
  content : List Char
  respcode : Int
deriving DecidableEq

/-- Function `msg_init` (rtsp.c lines 556-574): an all-zero message. -/
def msg_init : rtsp_message_m :=
  { headers := [], method := [], contentlength := 0, content := [], respcode := 0 }

/-- Function `msg_add_header` (rtsp.c lines 576-589): append a header unless the
16-slot header table is already full (in which case the header is dropped
with a warning). -/
def msg_add_header (msg : rtsp_message_m) (name value : List Char) : rtsp_message_m :=
  if 16 ≤ msg.headers.length then msg
  else { msg with headers := msg.headers ++ [(name, value)] }

/-- Case-insensitive header-name comparison (`strcasecmp`). -/
def ci_eq (a b : List Char) : Bool :=
  (a.map Char.toLower) == (b.map Char.toLower)

/-- Function `msg_get_header` (rtsp.c lines 591-601): first header whose name matches
case-insensitively. -/
def msg_get_header (msg : rtsp_message_m) (name : List Char) : Option (List Char) :=
  (msg.headers.find? (fun h => ci_eq h.1 name)).map Prod.snd

/-- Function `msg_handle_line` (rtsp.c lines 687-749).  With no message yet, the line
is the request line: `strtok_r` by spaces must produce method, URI and the
exact version `RTSP/1.0`, else the message is destroyed (left `none`).  A
non-empty line must contain `": "` and becomes a header.  The empty line
ends the header section and returns the `Content-Length` value (0 when the
header is absent); all other outcomes return -1 to ask for more lines. -/
def msg_handle_line (pmsg : Option rtsp_message_m) (line : List Char) :
    Option rtsp_message_m × Int :=
  match pmsg with
  | none =>
      match tokenize [' '] line with
      | p1 :: _uri :: p3 :: _ =>
          if p3 = "RTSP/1.0".toList then
            (some { msg_init with method := p1.take 15 }, -1)
          else (none, 0)
      | _ => (none, 0)
  | some msg =>
      if line.length ≠ 0 then
        match split_at_first (": ".toList) line with
        | none => (none, 0)
        | some (name, value) => (some (msg_add_header msg name value), -1)
      else
        match msg_get_header msg ("Content-Length".toList) with
        | some cl => (some msg, c_atoi cl)
        | none => (some msg, 0)

/-! ## `rtsp_read_request` (rtsp.c lines 751-949)

The blocking socket is modelled by an explicit trace of read results: each
`read()` call consumes one event.  A `bytes` event delivers at most the
number of bytes the call asked for.  The ~80 ms pacing sleep, the 15 s
stall-warning metadata event and the allocation-failure paths do not affect
the returned result and are not modelled. -/

def EINTR : Nat := 4

def EAGAIN : Nat := 11

/-- What one `read()` call on the RTSP socket returns. -/
inductive ReadEvent where
  | closed
  | rerr (errno : Nat)
  | bytes (bs : List Char)

/-- The result enumeration `enum rtsp_read_request_response`, plus `blocked`
for a trace that ends while the C code would still be inside `read()`. -/
inductive rtsp_read_request_response where
  | ok (m : rtsp_message_m)
  | immediate_shutdown_requested
  | channel_closed
  | read_error
  | bad_packet
  | error
  | blocked
deriving DecidableEq

/-- Result of draining complete lines from the buffer (the inner `while` of
the header loop): either `msg_handle_line` destroyed the message (a bad
packet), or parsing stopped at an incomplete line or a completed header
section. -/
inductive ParseLoop where
  | failed
  | more (msg : Option rtsp_message_m) (msg_size : Int) (pending : List Char)

/-- The inner line loop of `rtsp_read_request` (rtsp.c lines 827-842):
`while (msg_size < 0 && (next = nextline(buf, inbuf)))`.  The fuel is the
buffer length plus one; `nextline` consumes at least the terminator, so the
fuel never runs out. -/
def parse_lines_aux : Nat → Option rtsp_message_m → Int → List Char → ParseLoop
  | 0, msg, msg_size, pending => ParseLoop.more msg msg_size pending
  | fuel + 1, msg, msg_size, pending =>
      if msg_size < 0 then
        match nextline pending with
        | none => ParseLoop.more msg msg_size pending
        | some (line, rest) =>
            match msg_handle_line msg line with
            | (none, _) => ParseLoop.failed
            | (some m2, sz) => parse_lines_aux fuel (some m2) sz rest
      else ParseLoop.more msg msg_size pending

/-- Drain complete lines from the buffer. -/
def parse_lines (msg : Option rtsp_message_m) (msg_size : Int)
    (pending : List Char) : ParseLoop :=
  parse_lines_aux (pending.length + 1) msg msg_size pending

/-- Outcome of the header-reading loop. -/
inductive HeaderPhase where
  | fail (r : rtsp_read_request_response)
  | done (msg : rtsp_message_m) (msg_size : Int) (pending : List Char)
      (rest : List ReadEvent)

/-- The header loop of `rtsp_read_request` (rtsp.c lines 771-843):
`while (msg_size < 0)` check the stop flag, read once, and feed complete
lines to the parser.  A zero-byte read here means the connection closed. -/
def read_header_phase (stop : Bool) (buflen : Nat) :
    Option rtsp_message_m → Int → List Char → List ReadEvent → HeaderPhase
  | msg, msg_size, pending, events =>
    if msg_size < 0 then
      if stop then HeaderPhase.fail .immediate_shutdown_requested
      else
        match events with
        | [] => HeaderPhase.fail .blocked
        | ReadEvent.closed :: _ => HeaderPhase.fail .channel_closed
        | ReadEvent.rerr e :: rest =>
            if e = EINTR ∨ e = EAGAIN then
              read_header_phase stop buflen msg msg_size pending rest
            else HeaderPhase.fail .read_error
        | ReadEvent.bytes bs :: rest =>
            let nread := min bs.length (buflen - pending.length)
            if nread = 0 then HeaderPhase.fail .channel_closed
            else
              match parse_lines msg msg_size (pending ++ bs.take nread) with
              | ParseLoop.failed => HeaderPhase.fail .bad_packet
              | ParseLoop.more m2 sz2 pend3 =>
                  read_header_phase stop buflen m2 sz2 pend3 rest
    else
      match msg with
      | some m => HeaderPhase.done m msg_size pending events
      | none => HeaderPhase.fail .bad_packet

/-- Outcome of the body-reading loop. -/
inductive BodyPhase where
  | fail (r : rtsp_read_request_response)
  | done (pending : List Char)

/-- The body loop of `rtsp_read_request` (rtsp.c lines 865-931):
`while (inbuf < msg_size)` check the stop flag and read a chunk of at most
64 KiB.  A zero-byte read here yields `rtsp_read_request_response_error`
(rtsp.c lines 902-906), not `channel_closed`. -/
def read_body_phase (stop : Bool) (msg_size : Nat) :
    List Char → List ReadEvent → BodyPhase
  | pending, events =>
    if pending.length < msg_size then
      if stop then BodyPhase.fail .immediate_shutdown_requested
      else
        match events with
        | [] => BodyPhase.fail .blocked
        | ReadEvent.closed :: _ => BodyPhase.fail .error
        | ReadEvent.rerr e :: rest =>
            if e = EINTR ∨ e = EAGAIN then
              read_body_phase stop msg_size pending rest
            else BodyPhase.fail .read_error
        | ReadEvent.bytes bs :: rest =>
            let read_chunk := min (msg_size - pending.length) (1024 * 1024 / 16)
            let nread := min bs.length read_chunk
            if nread = 0 then BodyPhase.fail .error
            else read_body_phase stop msg_size (pending ++ bs.take nread) rest
    else BodyPhase.done pending

/-- Function `rtsp_read_request` (rtsp.c lines 751-949): header phase with a 4 KiB
buffer, an always-successful `realloc` to the announced content length, then
the body phase; on success the message carries all bytes read as its
content. -/
def rtsp_read_request (stop : Bool) (events : List ReadEvent) :
    rtsp_read_request_response :=
  match read_header_phase stop 4096 none (-1) [] events with
  | HeaderPhase.fail r => r
  | HeaderPhase.done m msg_size pending rest =>
      match read_body_phase stop msg_size.toNat pending rest with
      | BodyPhase.fail r => r
      | BodyPhase.done content =>
          rtsp_read_request_response.ok
            { m with contentlength := (content.length : Int), content := content }

/-! ## ANNOUNCE (`handle_announce`, rtsp.c lines 2362-2706)

The SDP body is scanned line by line with `nextline`; the matched attribute
suffixes drive codec selection, latency bounds and the encryption setup.
`base64_dec` and `rsa_apply` are external cryptographic collaborators; only
the lengths they report are observable here, so they appear as function
parameters.  The session-admission slot `playing_conn` and the per-connection
`stop` flags form the `admission_state`. -/

/-- The attribute pointers collected by the SDP scanning loop (rtsp.c lines
2462-2497): each is the suffix of the last matching line after its
prefix. -/
structure sdp_ptrs where
  pUncompressedCDAudio : Option (List Char) := none
  pssid : Option (List Char) := none
  pfmtp : Option (List Char) := none
  paesiv : Option (List Char) := none
  prsaaeskey : Option (List Char) := none
  pminlatency : Option (List Char) := none
  pmaxlatency : Option (List Char) := none

/-- Apply the prefix tests of the SDP scanning loop to one line (rtsp.c
lines 2479-2494); the checks are sequential, so a later matching line
overwrites an earlier pointer. -/
def sdp_check_line (p : sdp_ptrs) (line : List Char) : sdp_ptrs :=
  let lit1 := "a=rtpmap:96 L16/44100/2".toList
  let p := if lit1.isPrefixOf line then
    { p with pUncompressedCDAudio := some (line.drop lit1.length) } else p
  let lit2 := "o=iTunes".toList
  let p := if lit2.isPrefixOf line then
    { p with pssid := some (line.drop lit2.length) } else p
  let lit3 := "a=fmtp:".toList
  let p := if lit3.isPrefixOf line then
    { p with pfmtp := some (line.drop lit3.length) } else p
  let lit4 := "a=aesiv:".toList
  let p := if lit4.isPrefixOf line then
    { p with paesiv := some (line.drop lit4.length) } else p
  let lit5 := "a=rsaaeskey:".toList
  let p := if lit5.isPrefixOf line then
    { p with prsaaeskey := some (line.drop lit5.length) } else p
  let lit6 := "a=min-latency:".toList
  let p := if lit6.isPrefixOf line then
    { p with pminlatency := some (line.drop lit6.length) } else p
  let lit7 := "a=max-latency:".toList
  if lit7.isPrefixOf line then
    { p with pmaxlatency := some (line.drop lit7.length) } else p

/-- The SDP scanning loop (rtsp.c lines 2474-2497): cut the content into
lines with `nextline` and test each; a final line with no terminator is
still tested once before the loop exits.  The fuel is the content length,
which bounds the number of lines. -/
def scan_sdp_aux (p : sdp_ptrs) : Nat → List Char → sdp_ptrs
  | 0, _ => p
  | _, [] => p
  | fuel + 1, content =>
      match nextline content with
      | some (line, rest) => scan_sdp_aux (sdp_check_line p line) fuel rest
      | none => sdp_check_line p content

/-- Scan a whole SDP body. -/
def scan_sdp (content : List Char) : sdp_ptrs :=
  scan_sdp_aux {} (content.length + 1) content

/-- The preset fmtp defaults installed before parsing (rtsp.c lines
2594-2605). -/
def fmtp_defaults : List Int := [96, 352, 0, 16, 40, 10, 14, 2, 255, 0, 0, 44100]

/-- The fmtp fill loop (rtsp.c lines 2607-2612): each `strsep` field in turn
overwrites one slot, stopping after the twelfth; remaining slots keep their
preset values. -/
def fmtp_overwrite : List Int → List (List Char) → List Int
  | ds, [] => ds
  | [], _ => []
  | _d :: ds, t :: ts => c_atoi t :: fmtp_overwrite ds ts

/-- Parse the `a=fmtp:` attribute value into the twelve fmtp slots. -/
def parse_fmtp (s : List Char) : List Int :=
  fmtp_overwrite fmtp_defaults (strsep_tokens s)

/-- Enumeration `conn->stream.type`. -/
inductive airplay_stream_type where
  | ast_unknown
  | ast_uncompressed
  | ast_apple_lossless
deriving DecidableEq

/-- The stream settings inside the connection (`conn->stream`); the AES key
and IV bytes live in external buffers and only their validity matters
here. -/
structure stream_settings where
  stype : airplay_stream_type
  fmtp : List Int
  encrypted : Bool
deriving DecidableEq

/-- The connection fields `handle_announce` writes. -/
structure announce_conn where
  stream : stream_settings
  max_frames_per_packet : Int
  input_rate : Int
  input_num_channels : Int
  input_bit_depth : Int
  input_bytes_per_frame : Int
  minimum_latency : Int
  maximum_latency : Int
deriving DecidableEq

/-- The process-global session-admission state: the `playing_conn` slot
(by connection number) and each connection's `stop` flag. -/
structure admission_state where
  playing_conn : Option Nat
  stopped : Nat → Bool

/-- Result of the first, locked admission attempt (rtsp.c lines
2372-2400). -/
structure admission_attempt where
  st : admission_state
  have_the_player : Bool
  should_wait : Bool
  interrupting : Bool

/-- The locked admission attempt at the top of `handle_announce` (rtsp.c
lines 2372-2400): claim an empty slot; tolerate a duplicate ANNOUNCE; wait
for a stopping holder; with `allow_session_interruption`, stop the holder
and wait; otherwise give up immediately. -/
def announce_try_acquire (st : admission_state) (c : Nat)
    (allow_session_interruption : Bool) : admission_attempt :=
  match st.playing_conn with
  | none => ⟨{ st with playing_conn := some c }, true, false, false⟩
  | some d =>
      if d = c then ⟨st, true, false, false⟩
      else if st.stopped d then ⟨st, false, true, false⟩
      else if allow_session_interruption then
        ⟨{ st with stopped := fun j => if j = d then true else st.stopped j },
          false, true, true⟩
      else ⟨st, false, false, false⟩

/-- The 100 ms polling loop of `handle_announce` (rtsp.c lines 2402-2433):
up to thirty lock-and-check rounds within the 3 s budget.  Each round first
observes whether the environment (the departing holder) has emptied the slot
since the last look — `frees` supplies one observation per round — and
claims the slot if it is empty.  Releases the environment performs after the
loop's last observation are outside this function's behaviour. -/
def announce_wait (c : Nat) : Nat → admission_state → List Bool → admission_state × Bool
  | 0, st, _ => (st, false)
  | fuel + 1, st, frees =>
      let st1 := if frees.headD false then { st with playing_conn := none } else st
      if st1.playing_conn = none then ({ st1 with playing_conn := some c }, true)
      else announce_wait c fuel st1 frees.tail

/-- The SDP-processing body of `handle_announce` (rtsp.c lines 2460-2684),
entered once the player is held.  `base64_iv_len` is the byte count
`base64_dec` reports for the `a=aesiv:` value; `rsa_key_len` is the byte
count `rsa_apply(..., RSA_MODE_KEY)` reports for the decoded
`a=rsaaeskey:` value.  The response code starts at 456 and becomes 200 only
when a known codec survives the encryption checks; the `X-Apple-Client-Name`
and `User-Agent` captures and their metadata events do not affect the
returned fields. -/
def announce_body (base64_iv_len : List Char → Nat) (rsa_key_len : List Char → Nat)
    (conn : announce_conn) (content : List Char) : announce_conn × Int :=
  let conn := { conn with stream := { conn.stream with stype := .ast_unknown } }
  let ptrs := scan_sdp content
  let conn :=
    if ptrs.pUncompressedCDAudio.isSome then
      { conn with
        stream := { conn.stream with stype := .ast_uncompressed },
        max_frames_per_packet := 352,
        input_rate := 44100,
        input_num_channels := 2,
        input_bit_depth := 16,
        input_bytes_per_frame := 2 * ((16 + 7) / 8) }
    else conn
  let conn :=
    match ptrs.pminlatency with
    | some v => { conn with minimum_latency := c_atoi v }
    | none => conn
  let conn :=
    match ptrs.pmaxlatency with
    | some v => { conn with maximum_latency := c_atoi v }
    | none => conn
  let encrypted := !(ptrs.paesiv = none ∧ ptrs.prsaaeskey = none)
  let conn := { conn with stream := { conn.stream with encrypted := encrypted } }
  if encrypted ∧ base64_iv_len (ptrs.paesiv.getD []) ≠ 16 then
    (conn, 456)
  else if encrypted ∧ rsa_key_len (ptrs.prsaaeskey.getD []) ≠ 16 then
    (conn, 456)
  else
    let conn :=
      match ptrs.pfmtp with
      | some s =>
          let f := parse_fmtp s
          { conn with
            stream := { conn.stream with stype := .ast_apple_lossless, fmtp := f },
            max_frames_per_packet := f.getD 1 0,
            input_rate := f.getD 11 0,
            input_num_channels := f.getD 7 0,
            input_bit_depth := f.getD 3 0,
            input_bytes_per_frame := f.getD 7 0 * Int.tdiv (f.getD 3 0 + 7) 8 }
      | none => conn
    if conn.stream.stype = .ast_unknown then (conn, 456)
    else (conn, 200)

/-- The `out:` epilogue of `handle_announce` (rtsp.c lines 2693-2705): on
any response other than 200 or 453, release the play lock if this
connection holds it. -/
def announce_out (code : Int) (c : Nat) (st2 : admission_state) : admission_state :=
  if code ≠ 200 ∧ code ≠ 453 then
    if st2.playing_conn = some c then { st2 with playing_conn := none } else st2
  else st2

/-- Function `handle_announce` (rtsp.c lines 2362-2706): try to become
`playing_conn`, polling for up to 3 s when waiting is called for; with the
player held, process the SDP body; reply 453 when the slot could not be
acquired; then run the `out:` epilogue.  The UDP-port-pool reset on a fresh
acquisition touches no state modelled here. -/
def handle_announce (base64_iv_len : List Char → Nat) (rsa_key_len : List Char → Nat)
    (st : admission_state) (c : Nat) (allow_session_interruption : Bool)
    (frees : List Bool) (conn : announce_conn) (content : List Char) :
    admission_state × announce_conn × Int :=
  let att := announce_try_acquire st c allow_session_interruption
  let wr :=
    if att.should_wait then announce_wait c 30 att.st frees
    else (att.st, att.have_the_player)
  let br :=
    if wr.2 then announce_body base64_iv_len rsa_key_len conn content
    else (conn, (453 : Int))
  (announce_out br.2 c wr.1, br.1, br.2)

/-! ## SETUP (`handle_setup`, rtsp.c lines 1166-1331)

The connection fields `handle_setup` reads and writes, the `Transport`
header parsing and the guard that refuses to re-run `rtp_setup` once the
RTP transport is up.  `rtp_setup` itself lives in the external RTP module;
it is modelled from the spec below. -/

/-- Function `have_player` (rtsp.c lines 335-346): does this connection hold the
process-global `playing_conn` slot? -/
def have_player (st : admission_state) (c : Nat) : Bool :=
  st.playing_conn == some c

/-- The connection fields involved in SETUP. -/
structure setup_conn where
  rtp_running : Bool
  remote_control_port : Nat
  remote_timing_port : Nat
  local_audio_port : Nat
  local_control_port : Nat
  local_timing_port : Nat
deriving DecidableEq

/-- Modelled from the spec: `rtp_setup` is an external collaborator of the
RTP transport module (spec sections 1, 4.7 and 6), absent from this
repository.  Per the spec, the core supplies the remote control and timing
ports and receives the three local UDP ports from the module; `rtp_running`
is set once the UDP triple is set up.  `alloc` is the module's port
allocation (audio, control, timing); an audio port of 0 signals failure. -/
def rtp_setup (conn : setup_conn) (cport tport : Nat) (alloc : Nat × Nat × Nat) :
    setup_conn :=
  { conn with
    remote_control_port := cport,
    remote_timing_port := tport,
    local_audio_port := alloc.1,
    local_control_port := alloc.2.1,
    local_timing_port := alloc.2.2,
    rtp_running := if alloc.1 = 0 then conn.rtp_running else true }

/-- What `handle_setup` produces: the possibly-released admission slot, the
updated connection, the response code, and whether `rtp_setup` was
invoked. -/
structure setup_result where
  st : admission_state
  conn : setup_conn
  respcode : Int
  rtp_setup_called : Bool

/-- The `Transport` header walk of `handle_setup` (rtsp.c lines 1228-1246):
`control_port=` and `timing_port=` are located with `strstr`, and the text
after each `=` is parsed with `atoi` into a `uint16_t` value; a missing
header or either missing field aborts the parse. -/
def parse_transport_ports : Option (List Char) → Option (Nat × Nat)
  | none => none
  | some hdr =>
      match c_strstr ("control_port=".toList) hdr with
      | none => none
      | some pc =>
          let cport := ((c_atoi (pc.drop ("control_port=".toList).length)).emod 65536).toNat
          match c_strstr ("timing_port=".toList) hdr with
          | none => none
          | some pt =>
              let tport := ((c_atoi (pt.drop ("timing_port=".toList).length)).emod 65536).toNat
              some (cport, tport)

/-- Function `handle_setup` (rtsp.c lines 1166-1331).  The response code starts at
451.  With the player held and both ports parsed from the `Transport`
header, the `rtp_running` guard decides whether `rtp_setup` runs: if the
transport is already up the handler only warns — whether the pair matches
the stored one or not — and does not call `rtp_setup`.  A non-zero local
audio port yields 200 (with the `Transport` and `Session: 1` response
headers); any other outcome keeps 451 and releases the play lock if held
(rtsp.c lines 1315-1324).  The `Active-Remote` and `DACP-ID` captures and
their metadata events do not affect the fields modelled here. -/
def handle_setup (st : admission_state) (c : Nat) (conn : setup_conn)
    (transportHdr : Option (List Char)) (alloc : Nat × Nat × Nat) : setup_result :=
  if have_player st c then
    let step :=
      match parse_transport_ports transportHdr with
      | none => (conn, false)
      | some ports =>
          if conn.rtp_running then (conn, false)
          else (rtp_setup conn ports.1 ports.2 alloc, true)
    let code : Int :=
      match parse_transport_ports transportHdr with
      | none => 451
      | some _ => if step.1.local_audio_port ≠ 0 then 200 else 451
    if code ≠ 200 then
      let st2 :=
        if st.playing_conn = some c then { st with playing_conn := none } else st
      { st := st2, conn := step.1, respcode := code, rtp_setup_called := step.2 }
    else
      { st := st, conn := step.1, respcode := code, rtp_setup_called := step.2 }
  else
    { st := st, conn := conn, respcode := 451, rtp_setup_called := false }

/-! ## GET_PARAMETER (`handle_get_parameter`, rtsp.c lines 2233-2258) -/

/-- Function `handle_get_parameter` (rtsp.c lines 2233-2258).  The volume body is
attached when the content is present, its length equals
`strlen("volume\r\n")` (that is, 8) and `strstr(content, "volume")` finds
`"volume"` at the very start of the content.  `volume_text` stands for the
externally formatted `%.6f` rendering of `config.airplay_volume`.  The
response code is always 200. -/
def handle_get_parameter (content : Option (List Char)) (contentlength : Nat)
    (volume_text : List Char) : Option (List Char) × Int :=
  match content with
  | some cont =>
      if contentlength = ("volume\r\n".toList).length ∧
          c_strstr ("volume".toList) cont = some cont then
        (some ("\r\nvolume: ".toList ++ volume_text ++ "\r\n".toList), 200)
      else (none, 200)
  | none => (none, 200)

/-! ## Metadata multicast sink (`metadata_multicast_process`, rtsp.c lines
1633-1702)

The outgoing UDP datagrams are byte lists; `htonl` serialisation is big
endian.  The socket is assumed open (`metadata_sock >= 0`). -/

/-- Big-endian serialisation of a 32-bit value, as `htonl` plus `memcpy`
produce. -/
def be32_bytes (v : Nat) : List Nat :=
  [v / 2 ^ 24 % 256, v / 2 ^ 16 % 256, v / 2 ^ 8 % 256, v % 256]

/-- The 8-byte chunk-protocol magic `"ssncchnk"`. -/
def ssncchnk : List Nat := "ssncchnk".toList.map Char.toNat

/-- The chunk loop of `metadata_multicast_process` (rtsp.c lines 1664-1700):
each datagram carries the magic, the chunk index, the chunk total, the type
and the code, then up to `sockmsglength - 24` payload bytes; the loop stops
when the remaining byte count reaches zero.  The fuel bounds the iteration
count; with `sockmsglength ≥ 25` it never runs out. -/
def metadata_chunks (sockmsglength mtype code chunk_total : Nat) :
    Nat → Nat → List Nat → List (List Nat)
  | 0, _, _ => []
  | fuel + 1, chunk_ix, data =>
      let datalen := min data.length (sockmsglength - 24)
      let dg := ssncchnk ++ be32_bytes chunk_ix ++ be32_bytes chunk_total ++
          be32_bytes mtype ++ be32_bytes code ++ data.take datalen
      if data.length - datalen = 0 then [dg]
      else dg :: metadata_chunks sockmsglength mtype code chunk_total fuel
          (chunk_ix + 1) (data.drop datalen)

/-- Function `metadata_multicast_process` (rtsp.c lines 1633-1702): one datagram of
`type || code || payload` when `length < sockmsglength - 8` (strictly), and
otherwise the numbered chunk protocol with
`chunk_total = length / (sockmsglength - 24)`, rounded up when the division
is inexact. -/
def metadata_multicast_process (sockmsglength mtype code : Nat)
    (data : List Nat) : List (List Nat) :=
  if data.length < sockmsglength - 8 then
    [be32_bytes mtype ++ be32_bytes code ++ data]
  else
    let ct0 := data.length / (sockmsglength - 24)
    let chunk_total := if ct0 * (sockmsglength - 24) < data.length then ct0 + 1 else ct0
    metadata_chunks sockmsglength mtype code chunk_total (data.length + 1) 0 data

/-! ## Apple challenge (`apple_challenge`, rtsp.c lines 2722-2793)

`base64_dec`, `base64_enc` and `rsa_apply` are external cryptographic
collaborators.  The decoded challenge arrives here as `chall` (the result of
`base64_dec`); the RSA signature and the base64 rendering are function
parameters; the buffer assembly and the padding-strip are the code under
test. -/

/-- Model of `memcpy(buf + pos, src, src.length)` on a byte list. -/
def write_bytes (buf : List Nat) (pos : Nat) (src : List Nat) : List Nat :=
  buf.take pos ++ src ++ buf.drop (pos + src.length)

/-- Function `apple_challenge` (rtsp.c lines 2722-2793).  A decoded challenge longer
than 16 bytes draws a warning and no `Apple-Response` header (`none`); the
function returns normally.  Otherwise a 48-byte zeroed buffer receives the
challenge, the server IP (4 bytes for IPv4, 16 for IPv6) and the 6-byte MAC
address; the used length is padded up to at least `0x20`; the result is
RSA-signed in `RSA_MODE_AUTH` mode, base64-encoded, and truncated at the
first `=`. -/
def apple_challenge (rsa : List Nat → List Nat) (b64enc : List Nat → List Char)
    (chall ip mac : List Nat) : Option (List Char) :=
  if 16 < chall.length then none
  else
    let b1 := write_bytes (List.replicate 48 0) 0 chall
    let b2 := write_bytes b1 chall.length ip
    let b3 := write_bytes b2 (chall.length + ip.length) mac
    let buflen := max (chall.length + ip.length + mac.length) 32
    let encoded := b64enc (rsa (b3.take buflen))
    some (encoded.takeWhile (fun c => c != '='))

/-! ## Conversation loop authorization (`rtsp_conversation_thread_func`,
rtsp.c lines 3186-3231)

Each request runs the gate
`if ((conn->authorized == 1) || (rtsp_auth(...)) == 0)`; when it passes,
`conn->authorized` is set to 1 and the method handler is dispatched.
Nothing else in the loop writes `authorized`.  `auth_ok` stands for
`rtsp_auth` returning 0 (no password configured, or the Digest check
passed). -/

/-- One pass of the authorization gate: returns the new `authorized` flag,
whether the request was dispatched to its method handler, and whether
`rtsp_auth` (the Digest check) was evaluated at all (the `||`
short-circuits). -/
def conversation_step (authorized : Bool) (auth_ok : Bool) : Bool × Bool × Bool :=
  if authorized then (true, true, false)
  else if auth_ok then (true, true, true)
  else (authorized, false, true)

/-- The `authorized` flag across a whole conversation: fold the gate over
the per-request `rtsp_auth` outcomes. -/
def run_conversation (authorized : Bool) : List Bool → Bool
  | [] => authorized
  | a :: rest => run_conversation (conversation_step authorized a).1 rest

/-- Ceiling division, `ceil(n / cap)` as `(n + cap - 1) / cap`; the shape in
which the spec states the multicast chunk total. -/
def ceil_div (n cap : Nat) : Nat := (n + cap - 1) / cap

/-! # Theorems -/

/-- The queue invariant survives one `pc_queue_add_item`. -/
theorem queue_inv_add {α : Type} (q : pc_queue α) (x : α) (h : queue_inv q) :
    queue_inv (pc_queue_add_item q x).1 := by
  obtain ⟨h1, h2, h3⟩ := h
  unfold pc_queue_add_item
  by_cases hc : q.count < q.capacity
  · simp only [hc, if_true, queue_inv]
    refine ⟨by omega, h2, ?_⟩
    by_cases he : q.eoq + 1 = q.capacity
    · simp [he]; omega
    · simp [he]; omega
  · simp only [hc, if_false]
    exact ⟨h1, h2, h3⟩

/-- The queue invariant survives one `pc_queue_get_item`. -/
theorem queue_inv_get {α : Type} (q : pc_queue α) (h : queue_inv q) :
    ∀ x q2, pc_queue_get_item q = some (x, q2) → queue_inv q2 := by
  obtain ⟨h1, h2, h3⟩ := h
  intro x q2 hq
  unfold pc_queue_get_item at hq
  by_cases hc : q.count = 0
  · simp [hc] at hq
  · simp only [hc, if_false, Option.some.injEq, Prod.mk.injEq] at hq
    obtain ⟨-, hq2⟩ := hq
    subst hq2
    refine ⟨?_, ?_, ?_⟩
    · show q.count - 1 ≤ q.capacity
      omega
    · show (if q.toq + 1 = q.capacity then 0 else q.toq + 1) < q.capacity
      by_cases ht : q.toq + 1 = q.capacity
      · simp [ht]; omega
      · simp [ht]; omega
    · exact h3

/-- The queue invariant survives any sequence of operations. -/
theorem queue_inv_run {α : Type} (ops : List (QOp α)) (q : pc_queue α)
    (h : queue_inv q) : queue_inv (run_queue_ops q ops) := by
  induction ops generalizing q with
  | nil => exact h
  | cons op rest ih =>
      cases op with
      | add x => exact ih _ (queue_inv_add q x h)
      | take =>
          unfold run_queue_ops
          cases hq : pc_queue_get_item q with
          | none => exact ih _ h
          | some p => exact ih _ (queue_inv_get q h p.1 p.2 (by rw [hq]))

/-- C2.  `pc_queue_add_item` on a full queue returns `EWOULDBLOCK` without
waiting and leaves the queue (count, toq, eoq and the stored items) exactly
as it was; and starting from `pc_queue_init`, any sequence of
`pc_queue_add_item` and `pc_queue_get_item` operations keeps the occupancy
in `[0, capacity]` and both ring pointers strictly below `capacity`. -/
theorem C2_queue_full_never_blocks_and_invariant :
    (∀ (α : Type) (q : pc_queue α) (x : α), q.count = q.capacity →
      pc_queue_add_item q x = (q, EWOULDBLOCK)) ∧
    (∀ (α : Type) (cap : Nat) (x0 : α) (ops : List (QOp α)), 0 < cap →
      queue_inv (run_queue_ops (pc_queue_init cap x0) ops)) := by
  constructor
  · intro α q x h
    unfold pc_queue_add_item
    simp [h]
  · intro α cap x0 ops hcap
    exact queue_inv_run ops _ ⟨Nat.zero_le _, hcap, hcap⟩

/-- Witness for C2 at a concrete full queue and a concrete operation
sequence. -/
theorem C2_witness :
    (pc_queue_add_item ⟨1, 1, 0, 0, fun _ => (0 : Nat)⟩ 7 =
      (⟨1, 1, 0, 0, fun _ => (0 : Nat)⟩, EWOULDBLOCK)) ∧
    queue_inv (run_queue_ops (pc_queue_init 2 (0 : Nat))
      [QOp.add 5, QOp.take, QOp.add 6, QOp.add 7, QOp.add 8, QOp.take]) :=
  ⟨C2_queue_full_never_blocks_and_invariant.1 Nat ⟨1, 1, 0, 0, fun _ => 0⟩ 7 rfl,
   C2_queue_full_never_blocks_and_invariant.2 Nat 2 0 _ (by decide)⟩

/-- C9.  The per-connection `authorized` flag is monotone: a step of the
conversation loop taken with `authorized` already true leaves it true,
dispatches the request to its method handler, and does not evaluate
`rtsp_auth` (the Digest check) at all; consequently the flag stays true for
the rest of the conversation, whatever `rtsp_auth` would have returned. -/
theorem C9_authorized_is_monotone :
    (∀ a : Bool, conversation_step true a = (true, true, false)) ∧
    (∀ evs : List Bool, run_conversation true evs = true) := by
  constructor
  · intro a; rfl
  · intro evs
    induction evs with
    | nil => rfl
    | cons a rest ih => simpa [run_conversation, conversation_step] using ih

/-- C3.  When the enqueue inside `send_metadata_to_queue` fails (the queue
is full), the function returns with the reference-count state exactly as it
was on entry: the retain taken for a carrier is paired with exactly one
release, and the copy taken for carrier-less data is freed; the nonzero
code `EWOULDBLOCK` is returned.  And the failure code never becomes a
connection-level error: `handle_set_parameter`, the handler that publishes
metadata, answers 200 regardless of the state of the queues. -/
theorem C3_enqueue_failure_is_contained :
    (∀ (q : pc_queue metadata_package) (r : RefState) (mtype code : Nat)
      (hasData : Bool) (length : Nat) (hasCarrier : Bool),
      ¬ q.count < q.capacity →
      (send_metadata_to_queue q r mtype code hasData length hasCarrier).2.1 = r ∧
      (send_metadata_to_queue q r mtype code hasData length hasCarrier).2.2 =
        EWOULDBLOCK) ∧
    (∀ (w : MetadataWorld) (contentType : Option String) (body : List Nat)
      (rtptime : Option Nat) (get_coverart : Bool) (progressLen : Option Nat),
      (handle_set_parameter w contentType body rtptime get_coverart
        progressLen).2 = 200) := by
  constructor
  · intro q r mtype code hasData length hasCarrier hfull
    unfold send_metadata_to_queue pc_queue_add_item
    simp only [hfull, if_false]
    have : EWOULDBLOCK ≠ 0 := by decide
    cases hasCarrier
    · cases hasData <;> simp [this]
    · simp [this]
  · intro w contentType body rtptime get_coverart progressLen
    unfold handle_set_parameter
    rfl

/-- Witness for C3 at a concrete full queue. -/
theorem C3_witness :
    ((send_metadata_to_queue
        ⟨1, 1, 0, 0, fun _ => ⟨0, 0, false, 0, false⟩⟩ ⟨3, 1⟩
        (fourcc "ssnc") (fourcc "prgr") true 5 true).2.1 = ⟨3, 1⟩ ∧
      (send_metadata_to_queue
        ⟨1, 1, 0, 0, fun _ => ⟨0, 0, false, 0, false⟩⟩ ⟨3, 1⟩
        (fourcc "ssnc") (fourcc "prgr") true 5 true).2.2 = EWOULDBLOCK) :=
  C3_enqueue_failure_is_contained.1
    ⟨1, 1, 0, 0, fun _ => ⟨0, 0, false, 0, false⟩⟩ ⟨3, 1⟩
    (fourcc "ssnc") (fourcc "prgr") true 5 true (by decide)

/-- C5 counterexample.  A request whose headers announce `Content-Length: 4`
followed by a connection close: the zero-byte read happens while reading the
body, and `rtsp_read_request` returns `error`, not `channel_closed` as the
claim asserts for every phase. -/
theorem C5_counterexample :
    rtsp_read_request false
      [ReadEvent.bytes ("SETUP * RTSP/1.0\r\nContent-Length: 4\r\n\r\n".toList),
        ReadEvent.closed] = rtsp_read_request_response.error ∧
    rtsp_read_request_response.error ≠ rtsp_read_request_response.channel_closed := by
  constructor
  · decide
  · decide

/-- C5 as amended.  A zero-byte read while the header lines are being parsed
yields `channel_closed`, from any header-phase state; a zero-byte read while
the `Content-Length`-delimited body is being read yields `error`, from any
body-phase state. -/
theorem C5_zero_read_by_phase (msg : Option rtsp_message_m) (msg_size : Int)
    (pending : List Char) (buflen : Nat) (rest : List ReadEvent)
    (msg_size2 : Nat) (pending2 : List Char) (rest2 : List ReadEvent)
    (hhdr : msg_size < 0) (hbody : pending2.length < msg_size2) :
    read_header_phase false buflen msg msg_size pending
      (ReadEvent.closed :: rest) = HeaderPhase.fail .channel_closed ∧
    read_body_phase false msg_size2 pending2 (ReadEvent.closed :: rest2) =
      BodyPhase.fail .error := by
  constructor
  · unfold read_header_phase
    simp [hhdr]
  · unfold read_body_phase
    simp [hbody]

/-- Witness for C5 at concrete phase states. -/
theorem C5_zero_read_by_phase_witness :
    ((-1 : Int) < 0 ∧ (0 : Nat) < 4) ∧
    (read_header_phase false 4096 none (-1) [] [ReadEvent.closed] =
        HeaderPhase.fail .channel_closed ∧
      read_body_phase false 4 [] [ReadEvent.closed] = BodyPhase.fail .error) :=
  ⟨⟨by decide, by decide⟩,
    C5_zero_read_by_phase none (-1) [] 4096 [] 4 [] [] (by decide) (by decide)⟩

/-- C8 counterexample.  The body `volumeAB` is 8 bytes long and begins with
`volume`, so `handle_get_parameter` attaches the volume body although the
request body is not `volume\r\n`. -/
theorem C8_counterexample :
    (handle_get_parameter (some ("volumeAB".toList)) 8 ("-20.5".toList)).1 =
      some ("\r\nvolume: -20.5\r\n".toList) ∧
    "volumeAB".toList ≠ "volume\r\n".toList := by
  constructor
  · decide
  · decide

/-- Any result of `c_strstr` is a suffix no longer than the haystack. -/
theorem c_strstr_length (pat : List Char) :
    ∀ l r, c_strstr pat l = some r → r.length ≤ l.length := by
  intro l
  induction l with
  | nil =>
      intro r h
      unfold c_strstr at h
      by_cases hp : pat.isPrefixOf ([] : List Char)
      · simp [hp] at h; simp [← h]
      · simp [hp] at h
  | cons c t ih =>
      intro r h
      unfold c_strstr at h
      by_cases hp : pat.isPrefixOf (c :: t)
      · simp [hp] at h; simp [← h]
      · simp [hp] at h
        exact Nat.le_succ_of_le (ih r h)

/-- Pointer equality `strstr(content, pat) == content` (the match sits at the very start)
exactly when `pat` is a prefix of the content. -/
theorem c_strstr_self_iff (pat l : List Char) :
    c_strstr pat l = some l ↔ pat.isPrefixOf l = true := by
  constructor
  · intro h
    cases l with
    | nil =>
        unfold c_strstr at h
        by_cases hp : pat.isPrefixOf ([] : List Char)
        · exact hp
        · simp [hp] at h
    | cons c t =>
        unfold c_strstr at h
        by_cases hp : pat.isPrefixOf (c :: t)
        · exact hp
        · simp [hp] at h
          have := c_strstr_length pat t _ h
          simp at this
  · intro h
    cases l with
    | nil => unfold c_strstr; simp [h]
    | cons c t => unfold c_strstr; simp [h]

/-- C8 as amended.  `handle_get_parameter` always answers 200, and it
attaches the body `\r\nvolume: <airplay_volume>\r\n` exactly when a request
body is present, is exactly 8 bytes long, and begins with `volume`;
otherwise the response body is empty. -/
theorem C8_get_parameter_characterised (cont : List Char) (cl : Nat)
    (vt : List Char) :
    handle_get_parameter (some cont) cl vt =
      (if cl = 8 ∧ ("volume".toList).isPrefixOf cont = true then
        (some ("\r\nvolume: ".toList ++ vt ++ "\r\n".toList), 200)
      else (none, 200)) ∧
    handle_get_parameter none cl vt = (none, 200) := by
  constructor
  · unfold handle_get_parameter
    have hlen : ("volume\r\n".toList).length = 8 := by decide
    by_cases h8 : cl = 8
    · subst h8
      by_cases hpre : ("volume".toList).isPrefixOf cont = true
      · have hs : c_strstr ['v', 'o', 'l', 'u', 'm', 'e'] cont = some cont :=
          (c_strstr_self_iff ("volume".toList) cont).2 hpre
        have hp2 : ['v', 'o', 'l', 'u', 'm', 'e'] <+: cont :=
          List.isPrefixOf_iff_prefix.1 hpre
        simp [hlen, hs, hp2]
      · have hs : ¬ c_strstr ['v', 'o', 'l', 'u', 'm', 'e'] cont = some cont :=
          fun hc => hpre ((c_strstr_self_iff ("volume".toList) cont).1 hc)
        have hp2 : ¬ (['v', 'o', 'l', 'u', 'm', 'e'] <+: cont) :=
          fun hp => hpre (List.isPrefixOf_iff_prefix.2 hp)
        simp [hlen, hs, hp2]
    · simp [hlen, h8]
  · rfl

/-- The SDP-processing body of ANNOUNCE answers either 200 or 456. -/
theorem announce_body_respcode (f g : List Char → Nat) (conn : announce_conn)
    (content : List Char) :
    (announce_body f g conn content).2 = 200 ∨
      (announce_body f g conn content).2 = 456 := by
  unfold announce_body
  simp only []
  repeat' split
  all_goals simp

/-- When the first admission attempt tells the caller to wait, it did not
hand over the player. -/
theorem announce_try_acquire_wait_no_player (st : admission_state) (c : Nat)
    (allow : Bool) :
    (announce_try_acquire st c allow).should_wait = true →
    (announce_try_acquire st c allow).have_the_player = false := by
  unfold announce_try_acquire
  rcases hpc : st.playing_conn with _ | d
  · simp
  · by_cases hd : d = c
    · simp [hd]
    · by_cases hs : st.stopped d
      · simp [hd, hs]
      · by_cases ha : allow
        · simp [hd, hs, ha]
        · simp [hd, hs, ha]

/-- A failed first admission attempt leaves the slot pointer as it was. -/
theorem announce_try_acquire_pc (st : admission_state) (c : Nat) (allow : Bool) :
    (announce_try_acquire st c allow).have_the_player = false →
    (announce_try_acquire st c allow).st.playing_conn = st.playing_conn := by
  unfold announce_try_acquire
  rcases hpc : st.playing_conn with _ | d
  · simp
  · by_cases hd : d = c
    · simp [hd]
    · by_cases hs : st.stopped d
      · simp [hd, hs, hpc]
      · by_cases ha : allow
        · simp [hd, hs, ha, hpc]
        · simp [hd, hs, ha, hpc]

/-- A polling wait that times out never moved the admission state: every
observation it made saw the slot still taken, so no claim was written. -/
theorem announce_wait_failed (c : Nat) :
    ∀ (fuel : Nat) (st : admission_state) (frees : List Bool),
    (announce_wait c fuel st frees).2 = false →
    (announce_wait c fuel st frees).1 = st := by
  intro fuel
  induction fuel with
  | zero => intro st frees _; rfl
  | succ f ih =>
      intro st frees h
      cases frees with
      | nil =>
          unfold announce_wait at h ⊢
          simp only [List.headD_nil, List.tail_nil] at h ⊢
          by_cases hp : st.playing_conn = none
          · simp [hp] at h
          · simp [hp] at h ⊢
            exact ih st [] h
      | cons e rest =>
          unfold announce_wait at h ⊢
          simp only [List.headD_cons, List.tail_cons] at h ⊢
          cases e with
          | true => simp at h
          | false =>
              simp only [Bool.false_eq_true, if_false] at h ⊢
              by_cases hp : st.playing_conn = none
              · simp [hp] at h
              · simp [hp] at h ⊢
                exact ih st rest h

/-- C1.  For every ANNOUNCE, if the final response code is neither 200 nor
453, then on return `playing_conn` does not hold this connection; and a 453
outcome leaves the slot exactly as it was on entry. -/
theorem C1_announce_slot_release (f g : List Char → Nat) (st : admission_state)
    (c : Nat) (allow : Bool) (frees : List Bool) (conn : announce_conn)
    (content : List Char)
    (h : (handle_announce f g st c allow frees conn content).2.2 ≠ 200) :
    ((handle_announce f g st c allow frees conn content).2.2 = 453 ∧
      (handle_announce f g st c allow frees conn content).1.playing_conn =
        st.playing_conn) ∨
    ((handle_announce f g st c allow frees conn content).2.2 ≠ 453 ∧
      (handle_announce f g st c allow frees conn content).1.playing_conn ≠
        some c) := by
  set A := announce_try_acquire st c allow with hA
  set W : admission_state × Bool :=
    if A.should_wait then announce_wait c 30 A.st frees
    else (A.st, A.have_the_player) with hW
  set B : announce_conn × Int :=
    if W.2 then announce_body f g conn content else (conn, (453 : Int)) with hB
  have hred : handle_announce f g st c allow frees conn content =
      (announce_out B.2 c W.1, B.1, B.2) := rfl
  rw [hred] at h ⊢
  by_cases hw2 : W.2 = true
  · have hBv : B = announce_body f g conn content := by rw [hB, if_pos hw2]
    rcases announce_body_respcode f g conn content with h200 | h456
    · exact absurd (by rw [hBv]; exact h200) h
    · right
      have hb2 : B.2 = 456 := by rw [hBv]; exact h456
      constructor
      · rw [hb2]; decide
      · rw [hb2]
        unfold announce_out
        rw [if_pos (by decide : (456 : Int) ≠ 200 ∧ (456 : Int) ≠ 453)]
        by_cases hpc : W.1.playing_conn = some c
        · rw [if_pos hpc]; simp
        · rw [if_neg hpc]; exact hpc
  · have hw2f : W.2 = false := by simpa using hw2
    have hBv : B = (conn, (453 : Int)) := by rw [hB, hw2f]; simp
    have hb2 : B.2 = 453 := by rw [hBv]
    left
    refine ⟨hb2, ?_⟩
    rw [hb2]
    unfold announce_out
    rw [if_neg (by decide : ¬ ((453 : Int) ≠ 200 ∧ (453 : Int) ≠ 453))]
    by_cases hsw : A.should_wait = true
    · have hWv : W = announce_wait c 30 A.st frees := by rw [hW, if_pos hsw]
      have hfail := announce_wait_failed c 30 A.st frees (by rw [← hWv]; exact hw2f)
      rw [hWv, hfail]
      exact announce_try_acquire_pc st c allow
        (announce_try_acquire_wait_no_player st c allow hsw)
    · have hswf : A.should_wait = false := by simpa using hsw
      have hWv : W = (A.st, A.have_the_player) := by rw [hW, hswf]; simp
      have hhv : A.have_the_player = false := by rw [hWv] at hw2f; exact hw2f
      rw [hWv]
      exact announce_try_acquire_pc st c allow hhv

/-- Witness for C1: another connection holds the slot and session
interruption is off, so the ANNOUNCE gets 453 and the slot still holds
connection 2. -/
theorem C1_witness :
    (handle_announce (fun _ => 0) (fun _ => 0) ⟨some 2, fun _ => false⟩ 1 false []
      ⟨⟨.ast_unknown, [], false⟩, 0, 0, 0, 0, 0, 0, 0⟩ []).2.2 ≠ 200 ∧
    (((handle_announce (fun _ => 0) (fun _ => 0) ⟨some 2, fun _ => false⟩ 1 false []
        ⟨⟨.ast_unknown, [], false⟩, 0, 0, 0, 0, 0, 0, 0⟩ []).2.2 = 453 ∧
      (handle_announce (fun _ => 0) (fun _ => 0) ⟨some 2, fun _ => false⟩ 1 false []
        ⟨⟨.ast_unknown, [], false⟩, 0, 0, 0, 0, 0, 0, 0⟩ []).1.playing_conn =
        (⟨some 2, fun _ => false⟩ : admission_state).playing_conn) ∨
    ((handle_announce (fun _ => 0) (fun _ => 0) ⟨some 2, fun _ => false⟩ 1 false []
        ⟨⟨.ast_unknown, [], false⟩, 0, 0, 0, 0, 0, 0, 0⟩ []).2.2 ≠ 453 ∧
      (handle_announce (fun _ => 0) (fun _ => 0) ⟨some 2, fun _ => false⟩ 1 false []
        ⟨⟨.ast_unknown, [], false⟩, 0, 0, 0, 0, 0, 0, 0⟩ []).1.playing_conn ≠
        some 1)) :=
  ⟨by decide,
    C1_announce_slot_release (fun _ => 0) (fun _ => 0) ⟨some 2, fun _ => false⟩
      1 false [] ⟨⟨.ast_unknown, [], false⟩, 0, 0, 0, 0, 0, 0, 0⟩ [] (by decide)⟩

/-- C10 counterexample.  The SDP line `a=fmtp:` carries zero integers, which
is "fewer than 12"; the claim says every slot then keeps its preset default,
but `strsep` still yields one (empty) field, `atoi` turns it into 0, and
slot 0 becomes 0 instead of the preset 96. -/
theorem C10_counterexample :
    (handle_announce (fun _ => 0) (fun _ => 0) ⟨none, fun _ => false⟩ 1 false []
      ⟨⟨.ast_unknown, [], false⟩, 0, 0, 0, 0, 0, 0, 0⟩
      ("a=fmtp:\r\n".toList)).2.1.stream.stype = .ast_apple_lossless ∧
    (handle_announce (fun _ => 0) (fun _ => 0) ⟨none, fun _ => false⟩ 1 false []
      ⟨⟨.ast_unknown, [], false⟩, 0, 0, 0, 0, 0, 0, 0⟩
      ("a=fmtp:\r\n".toList)).2.2 = 200 ∧
    (handle_announce (fun _ => 0) (fun _ => 0) ⟨none, fun _ => false⟩ 1 false []
      ⟨⟨.ast_unknown, [], false⟩, 0, 0, 0, 0, 0, 0, 0⟩
      ("a=fmtp:\r\n".toList)).2.1.stream.fmtp =
      [0, 352, 0, 16, 40, 10, 14, 2, 255, 0, 0, 44100] ∧
    (handle_announce (fun _ => 0) (fun _ => 0) ⟨none, fun _ => false⟩ 1 false []
      ⟨⟨.ast_unknown, [], false⟩, 0, 0, 0, 0, 0, 0, 0⟩
      ("a=fmtp:\r\n".toList)).2.1.stream.fmtp ≠ fmtp_defaults := by
  refine ⟨by decide, by decide, by decide, by decide⟩

/-- The fmtp fill loop, slot by slot: the i-th slot is `atoi` of the i-th
`strsep` field when one exists and the preset default otherwise; fields
beyond the preset table are ignored. -/
theorem fmtp_overwrite_spec :
    ∀ (ds : List Int) (ts : List (List Char)),
    (fmtp_overwrite ds ts).length = ds.length ∧
    ∀ i, i < ds.length →
      (fmtp_overwrite ds ts).getD i 0 =
        if i < ts.length then c_atoi (ts.getD i []) else ds.getD i 0 := by
  intro ds
  induction ds with
  | nil =>
      intro ts
      cases ts <;> exact ⟨rfl, fun i hi => absurd hi (Nat.not_lt_zero i)⟩
  | cons d ds2 ih =>
      intro ts
      cases ts with
      | nil => exact ⟨rfl, fun i _ => by simp [fmtp_overwrite]⟩
      | cons t ts2 =>
          refine ⟨by simpa [fmtp_overwrite] using (ih ts2).1, ?_⟩
          intro i hi
          cases i with
          | zero => simp [fmtp_overwrite]
          | succ j =>
              have hj : j < ds2.length := by simpa using hi
              have h2 := (ih ts2).2 j hj
              simp only [fmtp_overwrite, List.getD_cons_succ, List.length_cons]
              rw [h2]
              by_cases hlt : j < ts2.length
              · rw [if_pos hlt, if_pos (by omega)]
              · rw [if_neg hlt, if_neg (by omega)]

/-- C10 as amended.  For every ANNOUNCE that acquires the player and whose
SDP carries an `a=fmtp:` attribute but no `a=aesiv:`/`a=rsaaeskey:`, the
stream is classified Apple Lossless and each fmtp slot is `atoi` of the
corresponding space-or-tab-separated field of the attribute (an empty or
non-numeric field giving 0), slots beyond the field count keeping the preset
defaults (96, 352, 0, 16, 40, 10, 14, 2, 255, 0, 0, 44100) and fields beyond
the twelfth being ignored; the derived parameters are
`max_frames_per_packet = fmtp[1]`, `input_rate = fmtp[11]`,
`input_num_channels = fmtp[7]` and `input_bit_depth = fmtp[3]`, so they are
always defined. -/
theorem C10_fmtp_fill (f g : List Char → Nat) (st : admission_state) (c : Nat)
    (allow : Bool) (frees : List Bool) (conn : announce_conn)
    (content : List Char) (s : List Char)
    (hacq : st.playing_conn = none)
    (hfmtp : (scan_sdp content).pfmtp = some s)
    (hiv : (scan_sdp content).paesiv = none)
    (hkey : (scan_sdp content).prsaaeskey = none) :
    (handle_announce f g st c allow frees conn content).2.1.stream.stype =
      .ast_apple_lossless ∧
    (handle_announce f g st c allow frees conn content).2.1.stream.fmtp =
      parse_fmtp s ∧
    (handle_announce f g st c allow frees conn content).2.1.max_frames_per_packet =
      (parse_fmtp s).getD 1 0 ∧
    (handle_announce f g st c allow frees conn content).2.1.input_rate =
      (parse_fmtp s).getD 11 0 ∧
    (handle_announce f g st c allow frees conn content).2.1.input_num_channels =
      (parse_fmtp s).getD 7 0 ∧
    (handle_announce f g st c allow frees conn content).2.1.input_bit_depth =
      (parse_fmtp s).getD 3 0 ∧
    (parse_fmtp s).length = 12 ∧
    (∀ i, i < 12 →
      (parse_fmtp s).getD i 0 =
        if i < (strsep_tokens s).length then c_atoi ((strsep_tokens s).getD i [])
        else fmtp_defaults.getD i 0) := by
  have hbody :
      (handle_announce f g st c allow frees conn content).2.1 =
        (announce_body f g conn content).1 := by
    unfold handle_announce announce_try_acquire
    rw [hacq]
    rfl
  have hb :
      ((announce_body f g conn content).1.stream.stype = .ast_apple_lossless ∧
        (announce_body f g conn content).1.stream.fmtp = parse_fmtp s) ∧
      ((announce_body f g conn content).1.max_frames_per_packet =
          (parse_fmtp s).getD 1 0 ∧
        (announce_body f g conn content).1.input_rate = (parse_fmtp s).getD 11 0 ∧
        (announce_body f g conn content).1.input_num_channels =
          (parse_fmtp s).getD 7 0 ∧
        (announce_body f g conn content).1.input_bit_depth =
          (parse_fmtp s).getD 3 0) := by
    unfold announce_body
    simp only [hfmtp, hiv, hkey]
    simp
  refine ⟨?_, ?_, ?_, ?_, ?_, ?_, ?_, ?_⟩
  · rw [hbody]; exact hb.1.1
  · rw [hbody]; exact hb.1.2
  · rw [hbody]; exact hb.2.1
  · rw [hbody]; exact hb.2.2.1
  · rw [hbody]; exact hb.2.2.2.1
  · rw [hbody]; exact hb.2.2.2.2
  · exact (fmtp_overwrite_spec fmtp_defaults (strsep_tokens s)).1
  · exact (fmtp_overwrite_spec fmtp_defaults (strsep_tokens s)).2

/-- Witness for C10 at a concrete two-field fmtp attribute. -/
theorem C10_fmtp_fill_witness :
    ((⟨none, fun _ => false⟩ : admission_state).playing_conn = none ∧
      (scan_sdp ("a=fmtp:96 353\r\n".toList)).pfmtp = some ("96 353".toList) ∧
      (scan_sdp ("a=fmtp:96 353\r\n".toList)).paesiv = none ∧
      (scan_sdp ("a=fmtp:96 353\r\n".toList)).prsaaeskey = none) ∧
    ((handle_announce (fun _ => 0) (fun _ => 0) ⟨none, fun _ => false⟩ 1 false []
        ⟨⟨.ast_unknown, [], false⟩, 0, 0, 0, 0, 0, 0, 0⟩
        ("a=fmtp:96 353\r\n".toList)).2.1.stream.fmtp =
      parse_fmtp ("96 353".toList) ∧
      (handle_announce (fun _ => 0) (fun _ => 0) ⟨none, fun _ => false⟩ 1 false []
        ⟨⟨.ast_unknown, [], false⟩, 0, 0, 0, 0, 0, 0, 0⟩
        ("a=fmtp:96 353\r\n".toList)).2.1.max_frames_per_packet =
      (parse_fmtp ("96 353".toList)).getD 1 0) :=
  ⟨⟨rfl, by decide, by decide, by decide⟩,
    (C10_fmtp_fill (fun _ => 0) (fun _ => 0) ⟨none, fun _ => false⟩ 1 false []
      ⟨⟨.ast_unknown, [], false⟩, 0, 0, 0, 0, 0, 0, 0⟩
      ("a=fmtp:96 353\r\n".toList) ("96 353".toList) rfl (by decide) (by decide)
      (by decide)).2.1,
    (C10_fmtp_fill (fun _ => 0) (fun _ => 0) ⟨none, fun _ => false⟩ 1 false []
      ⟨⟨.ast_unknown, [], false⟩, 0, 0, 0, 0, 0, 0, 0⟩
      ("a=fmtp:96 353\r\n".toList) ("96 353".toList) rfl (by decide) (by decide)
      (by decide)).2.2.1⟩

/-- C4.  Once `rtp_running` is set, a SETUP never calls `rtp_setup` again
and never changes the stored remote control and timing ports — whether the
`Transport` header carries the same pair as before or a different one; and
two consecutive identical SETUPs on a fresh connection produce exactly one
`rtp_setup` call — the first call runs it, the second does not. -/
theorem C4_setup_runs_rtp_setup_once :
    (∀ (st : admission_state) (c : Nat) (conn : setup_conn)
      (hdr : Option (List Char)) (alloc : Nat × Nat × Nat),
      conn.rtp_running = true →
      (handle_setup st c conn hdr alloc).rtp_setup_called = false ∧
      (handle_setup st c conn hdr alloc).conn.remote_control_port =
        conn.remote_control_port ∧
      (handle_setup st c conn hdr alloc).conn.remote_timing_port =
        conn.remote_timing_port) ∧
    (∀ (st : admission_state) (c : Nat) (conn : setup_conn) (hdr : List Char)
      (alloc : Nat × Nat × Nat),
      st.playing_conn = some c → conn.rtp_running = false →
      (c_strstr ("control_port=".toList) hdr).isSome = true →
      (c_strstr ("timing_port=".toList) hdr).isSome = true →
      alloc.1 ≠ 0 →
      (handle_setup st c conn (some hdr) alloc).rtp_setup_called = true ∧
      (handle_setup (handle_setup st c conn (some hdr) alloc).st c
        (handle_setup st c conn (some hdr) alloc).conn (some hdr)
        alloc).rtp_setup_called = false) := by
  constructor
  · intro st c conn hdr alloc hr
    unfold handle_setup
    by_cases hp : have_player st c = true
    · simp only [hp, if_true]
      rcases hpt : parse_transport_ports hdr with - | ports
      · simp [hpt]
      · simp only [hpt, hr, if_true]
        split_ifs <;> simp
    · simp [hp]
  · intro st c conn hdr alloc hpc hr h1 h2 ha
    have hp : have_player st c = true := by
      unfold have_player; simp [hpc]
    obtain ⟨pc, hpcs⟩ := Option.isSome_iff_exists.mp h1
    obtain ⟨pt, hpts⟩ := Option.isSome_iff_exists.mp h2
    have hpv : parse_transport_ports (some hdr) =
        some (((c_atoi (pc.drop ("control_port=".toList).length)).emod 65536).toNat,
          ((c_atoi (pt.drop ("timing_port=".toList).length)).emod 65536).toNat) := by
      unfold parse_transport_ports
      simp only [hpcs, hpts]
    have hfirst : handle_setup st c conn (some hdr) alloc =
        { st := st,
          conn := rtp_setup conn
            (((c_atoi (pc.drop ("control_port=".toList).length)).emod 65536).toNat)
            (((c_atoi (pt.drop ("timing_port=".toList).length)).emod 65536).toNat) alloc,
          respcode := 200, rtp_setup_called := true } := by
      unfold handle_setup
      simp only [hp, if_true, hpv, hr]
      simp [rtp_setup, ha]
    constructor
    · rw [hfirst]
    · rw [hfirst]
      unfold handle_setup
      simp only [hp, if_true, hpv]
      have hrun : (rtp_setup conn
          (((c_atoi (pc.drop ("control_port=".toList).length)).emod 65536).toNat)
          (((c_atoi (pt.drop ("timing_port=".toList).length)).emod 65536).toNat)
          alloc).rtp_running = true := by
        unfold rtp_setup
        simp [ha]
      simp only [hrun, if_true]
      split_ifs <;> simp

/-- Witness for C4 at a concrete Transport header and port allocation. -/
theorem C4_witness :
    ((⟨some 1, fun _ => false⟩ : admission_state).playing_conn = some 1 ∧
      (⟨false, 0, 0, 0, 0, 0⟩ : setup_conn).rtp_running = false ∧
      (c_strstr ("control_port=".toList)
        ("RTP/AVP/UDP;unicast;mode=record;control_port=6001;timing_port=6002".toList)).isSome = true ∧
      (c_strstr ("timing_port=".toList)
        ("RTP/AVP/UDP;unicast;mode=record;control_port=6001;timing_port=6002".toList)).isSome = true ∧
      ((6010, 6011, 6012) : Nat × Nat × Nat).1 ≠ 0) ∧
    ((handle_setup ⟨some 1, fun _ => false⟩ 1 ⟨false, 0, 0, 0, 0, 0⟩
        (some ("RTP/AVP/UDP;unicast;mode=record;control_port=6001;timing_port=6002".toList))
        (6010, 6011, 6012)).rtp_setup_called = true ∧
      (handle_setup
        (handle_setup ⟨some 1, fun _ => false⟩ 1 ⟨false, 0, 0, 0, 0, 0⟩
          (some ("RTP/AVP/UDP;unicast;mode=record;control_port=6001;timing_port=6002".toList))
          (6010, 6011, 6012)).st 1
        (handle_setup ⟨some 1, fun _ => false⟩ 1 ⟨false, 0, 0, 0, 0, 0⟩
          (some ("RTP/AVP/UDP;unicast;mode=record;control_port=6001;timing_port=6002".toList))
          (6010, 6011, 6012)).conn
        (some ("RTP/AVP/UDP;unicast;mode=record;control_port=6001;timing_port=6002".toList))
        (6010, 6011, 6012)).rtp_setup_called = false) :=
  ⟨⟨rfl, rfl, by decide, by decide, by decide⟩,
    C4_setup_runs_rtp_setup_once.2 ⟨some 1, fun _ => false⟩ 1 ⟨false, 0, 0, 0, 0, 0⟩
      ("RTP/AVP/UDP;unicast;mode=record;control_port=6001;timing_port=6002".toList)
      (6010, 6011, 6012) rfl rfl (by decide) (by decide) (by decide)⟩

set_option maxRecDepth 40000 in
/-- C6 counterexample.  With the default `sockmsglength` of 500, a payload
of exactly `500 - 8 = 492` bytes satisfies the claim's
`length <= sockmsglength - 8` bound, yet the code (whose test is the strict
`length < sockmsglength - 8`) sends it as two chunk-protocol datagrams, not
as one `type || code || payload` datagram. -/
theorem C6_counterexample :
    (List.replicate 492 (0 : Nat)).length ≤ 500 - 8 ∧
    (metadata_multicast_process 500 1 2 (List.replicate 492 0)).length = 2 ∧
    (metadata_multicast_process 500 1 2 (List.replicate 492 0)).length ≠ 1 := by
  refine ⟨by decide, ?_, ?_⟩
  · decide
  · decide

/-- The chunk-total computation of `metadata_multicast_process` (rtsp.c
lines 1657-1662) is ceiling division. -/
theorem chunk_total_eq_ceil (n cap : Nat) (hcap : 1 ≤ cap) :
    (if n / cap * cap < n then n / cap + 1 else n / cap) = ceil_div n cap := by
  unfold ceil_div
  have hd := Nat.div_add_mod n cap
  have hcomm : n / cap * cap = cap * (n / cap) := Nat.mul_comm _ _
  rcases Nat.eq_zero_or_pos (n % cap) with hr | hr
  · rw [if_neg (by omega)]
    have harr : n + cap - 1 = cap * (n / cap) + (cap - 1) := by omega
    rw [harr, Nat.mul_add_div (by omega : 0 < cap),
      Nat.div_eq_of_lt (show cap - 1 < cap by omega)]
    try omega
  · rw [if_pos (by omega)]
    have hrlt : n % cap < cap := Nat.mod_lt n (by omega)
    have harr : n + cap - 1 = cap * (n / cap) + (n % cap - 1 + cap) := by omega
    rw [harr, Nat.mul_add_div (by omega : 0 < cap), Nat.add_div_right _ (by omega),
      Nat.div_eq_of_lt (show n % cap - 1 < cap by omega)]
    try omega

/-- One step of ceiling division: a payload longer than one chunk needs one
chunk more than its remainder. -/
theorem ceil_div_step (n cap : Nat) (hcap : 1 ≤ cap) (h : cap < n) :
    ceil_div n cap = ceil_div (n - cap) cap + 1 := by
  unfold ceil_div
  have harr : n + cap - 1 = (n - cap + cap - 1) + cap := by omega
  rw [harr, Nat.add_div_right _ (by omega)]

/-- A payload that fits one chunk is exactly one chunk. -/
theorem ceil_div_one (n cap : Nat) (hcap : 1 ≤ cap) (h1 : 1 ≤ n) (h2 : n ≤ cap) :
    ceil_div n cap = 1 := by
  unfold ceil_div
  have harr : n + cap - 1 = (n - 1) + cap := by omega
  rw [harr, Nat.add_div_right _ (by omega), Nat.div_eq_of_lt (by omega)]

/-- The chunk loop of `metadata_multicast_process`, in closed form: it emits
`ceil(length / (sockmsglength - 24))` datagrams, the `k`-th carrying the
magic, the index `ix + k`, the announced total, the type, the code and the
`k`-th `(sockmsglength - 24)`-byte slice of the payload. -/
theorem metadata_chunks_eq (smsgl mtype code total : Nat) (hcap : 25 ≤ smsgl) :
    ∀ (fuel : Nat) (data : List Nat) (ix : Nat),
      1 ≤ data.length → data.length ≤ fuel →
      metadata_chunks smsgl mtype code total fuel ix data =
        (List.range (ceil_div data.length (smsgl - 24))).map
          (fun k => ssncchnk ++ be32_bytes (ix + k) ++ be32_bytes total ++
            be32_bytes mtype ++ be32_bytes code ++
            ((data.drop (k * (smsgl - 24))).take (smsgl - 24))) := by
  intro fuel
  induction fuel with
  | zero => intro data ix h1 h2; omega
  | succ f ih =>
      intro data ix h1 h2
      have hcap1 : 1 ≤ smsgl - 24 := by omega
      unfold metadata_chunks
      simp only []
      by_cases hfit : data.length ≤ smsgl - 24
      · have hdl : min data.length (smsgl - 24) = data.length := by omega
        rw [hdl, Nat.sub_self, if_pos rfl,
          ceil_div_one data.length (smsgl - 24) hcap1 h1 hfit]
        rw [show List.range 1 = [0] from rfl]
        simp only [List.map_cons, List.map_nil, Nat.add_zero,
          Nat.zero_mul, List.drop_zero]
        rw [List.take_of_length_le (by omega), List.take_of_length_le hfit]
      · have hdl : min data.length (smsgl - 24) = smsgl - 24 := by omega
        rw [hdl, if_neg (by omega)]
        have hlen2 : (data.drop (smsgl - 24)).length = data.length - (smsgl - 24) := by
          simp
        rw [ih (data.drop (smsgl - 24)) (ix + 1) (by simp; omega) (by simp; omega),
          hlen2]
        rw [ceil_div_step data.length (smsgl - 24) hcap1 (by omega)]
        rw [List.range_succ_eq_map]
        simp only [List.map_cons, List.map_map, Nat.add_zero, Nat.zero_mul,
          List.drop_zero]
        congr 1
        apply List.map_congr_left
        intro k _
        simp only [Function.comp_apply]
        rw [List.drop_drop]
        have e1 : ix + 1 + k = ix + (k + 1) := by omega
        have e2 : smsgl - 24 + k * (smsgl - 24) = (k + 1) * (smsgl - 24) := by ring
        rw [e1, e2]

/-- The slices the chunk loop takes join back to the original payload. -/
theorem join_chunk_slices (cap : Nat) (hcap : 1 ≤ cap) :
    ∀ (fuel : Nat) (data : List Nat), data.length ≤ fuel →
      ((List.range (ceil_div data.length cap)).map
        (fun k => (data.drop (k * cap)).take cap)).flatten = data := by
  intro fuel
  induction fuel with
  | zero =>
      intro data h
      have : data = [] := List.eq_nil_of_length_eq_zero (by omega)
      subst this
      have : ceil_div 0 cap = 0 := by
        unfold ceil_div; exact Nat.div_eq_of_lt (by omega)
      simp [this]
  | succ f ih =>
      intro data h
      by_cases h0 : data.length = 0
      · have : data = [] := List.eq_nil_of_length_eq_zero h0
        subst this
        have : ceil_div 0 cap = 0 := by
          unfold ceil_div; exact Nat.div_eq_of_lt (by omega)
        simp [this]
      · by_cases hfit : data.length ≤ cap
        · rw [ceil_div_one data.length cap hcap (by omega) hfit,
            show List.range 1 = [0] from rfl]
          simp [List.take_of_length_le hfit]
        · rw [ceil_div_step data.length cap hcap (by omega),
            List.range_succ_eq_map]
          simp only [List.map_cons, List.map_map, List.flatten, Nat.zero_mul,
            List.drop_zero]
          have hrw : (List.range (ceil_div (data.length - cap) cap)).map
              ((fun k => (data.drop (k * cap)).take cap) ∘ Nat.succ) =
              (List.range (ceil_div ((data.drop cap).length) cap)).map
              (fun k => ((data.drop cap).drop (k * cap)).take cap) := by
            rw [show (data.drop cap).length = data.length - cap from by simp]
            apply List.map_congr_left
            intro k _
            show (data.drop (Nat.succ k * cap)).take cap =
              ((data.drop cap).drop (k * cap)).take cap
            rw [List.drop_drop]
            congr 2
            simp only [Nat.succ_eq_add_one]
            ring
          rw [hrw, ih (data.drop cap) (by simp; omega)]
          exact List.take_append_drop cap data

/-- C6 as amended.  For every multicast publish, exactly one datagram of
`type(4) || code(4) || payload` is sent when `length < sockmsglength - 8`
(strictly; at `length = sockmsglength - 8` the chunked path is taken), and
otherwise the payload goes out as `ceil(length / (sockmsglength - 24))`
chunk datagrams `"ssncchnk" || chunk_ix || chunk_total || type || code ||
slice` with indices running from 0, whose payload slices concatenate back to
the original payload. -/
theorem C6_multicast_layout (smsgl mtype code : Nat) (data : List Nat)
    (h : 24 < smsgl) :
    metadata_multicast_process smsgl mtype code data =
      (if data.length < smsgl - 8 then
        [be32_bytes mtype ++ be32_bytes code ++ data]
      else
        (List.range (ceil_div data.length (smsgl - 24))).map
          (fun k => ssncchnk ++ be32_bytes k ++
            be32_bytes (ceil_div data.length (smsgl - 24)) ++
            be32_bytes mtype ++ be32_bytes code ++
            ((data.drop (k * (smsgl - 24))).take (smsgl - 24)))) ∧
    ((List.range (ceil_div data.length (smsgl - 24))).map
      (fun k => (data.drop (k * (smsgl - 24))).take (smsgl - 24))).flatten = data := by
  constructor
  · unfold metadata_multicast_process
    by_cases hsmall : data.length < smsgl - 8
    · rw [if_pos hsmall, if_pos hsmall]
    · rw [if_neg hsmall, if_neg hsmall]
      simp only []
      rw [chunk_total_eq_ceil data.length (smsgl - 24) (by omega)]
      rw [metadata_chunks_eq smsgl mtype code _ (by omega) (data.length + 1) data 0
        (by omega) (by omega)]
      apply List.map_congr_left
      intro k _
      rw [Nat.zero_add]
  · exact join_chunk_slices (smsgl - 24) (by omega) (data.length + 1) data
      (by omega)

/-- Witness for C6 at a concrete small payload and a concrete chunked
payload size. -/
theorem C6_witness :
    (24 < 500 ∧
      metadata_multicast_process 500 1 2 [7, 8, 9] =
        (if ([7, 8, 9] : List Nat).length < 500 - 8 then
          [be32_bytes 1 ++ be32_bytes 2 ++ [7, 8, 9]]
        else
          (List.range (ceil_div ([7, 8, 9] : List Nat).length (500 - 24))).map
            (fun k => ssncchnk ++ be32_bytes k ++
              be32_bytes (ceil_div ([7, 8, 9] : List Nat).length (500 - 24)) ++
              be32_bytes 1 ++ be32_bytes 2 ++
              ((([7, 8, 9] : List Nat).drop (k * (500 - 24))).take (500 - 24))))) ∧
    ((List.range (ceil_div ([7, 8, 9] : List Nat).length (500 - 24))).map
      (fun k => (([7, 8, 9] : List Nat).drop (k * (500 - 24))).take (500 - 24))).flatten =
      [7, 8, 9] :=
  ⟨⟨by decide, (C6_multicast_layout 500 1 2 [7, 8, 9] (by decide)).1⟩,
    (C6_multicast_layout 500 1 2 [7, 8, 9] (by decide)).2⟩

/-- Truncating at the first `=` (as `strchr`-then-NUL does) removes exactly
the trailing padding when the string splits into an `=`-free core followed
by `=` signs. -/
theorem takeWhile_strips_padding :
    ∀ (core pads : List Char), (∀ x ∈ core, x ≠ '=') → (∀ x ∈ pads, x = '=') →
    (core ++ pads).takeWhile (fun c => c != '=') = core := by
  intro core
  induction core with
  | nil =>
      intro pads _ hpads
      cases pads with
      | nil => rfl
      | cons p ps =>
          have hp : p = '=' := hpads p (by simp)
          subst hp
          simp [List.takeWhile_cons]
  | cons c cs ih =>
      intro pads hcore hpads
      have hc : c ≠ '=' := hcore c (by simp)
      simp only [List.cons_append, List.takeWhile_cons]
      rw [if_pos (by simpa using hc)]
      rw [ih pads (fun x hx => hcore x (by simp [hx])) hpads]

/-- C7.  An Apple-Challenge whose base64 decoding exceeds 16 bytes draws no
`Apple-Response` header and the connection survives (the function returns
normally with `none`); a challenge of at most 16 bytes yields a header that
is the challenge bytes, then the server IP (4 bytes IPv4 or 16 bytes IPv6),
then the 6-byte MAC, zero-padded to at least 32 bytes, RSA-signed, base64
encoded and stripped of its trailing `=` padding. -/
theorem C7_apple_challenge_layout
    (rsa : List Nat → List Nat) (b64enc : List Nat → List Char)
    (chall ip mac : List Nat) (core pads : List Char)
    (hip : ip.length = 4 ∨ ip.length = 16) (hmac : mac.length = 6)
    (henc : b64enc (rsa (chall ++ ip ++ mac ++
      List.replicate (32 - (chall.length + ip.length + mac.length)) 0)) =
      core ++ pads)
    (hcore : ∀ x ∈ core, x ≠ '=') (hpads : ∀ x ∈ pads, x = '=') :
    apple_challenge rsa b64enc chall ip mac =
      if 16 < chall.length then none else some core := by
  unfold apple_challenge
  by_cases hlen : 16 < chall.length
  · rw [if_pos hlen, if_pos hlen]
  · rw [if_neg hlen, if_neg hlen]
    simp only []
    have hip16 : ip.length ≤ 16 := by rcases hip with h4 | h16 <;> omega
    have hch16 : chall.length ≤ 16 := by omega
    have hb1 : write_bytes (List.replicate 48 0) 0 chall =
        chall ++ List.replicate (48 - chall.length) 0 := by
      unfold write_bytes
      rw [List.take_zero, Nat.zero_add, List.drop_replicate, List.nil_append]
    have hb2 : write_bytes (chall ++ List.replicate (48 - chall.length) 0)
        chall.length ip =
        chall ++ ip ++ List.replicate (48 - chall.length - ip.length) 0 := by
      unfold write_bytes
      rw [List.take_left, List.drop_append, List.drop_replicate,
        List.append_assoc]
    have hb3 : write_bytes
        (chall ++ ip ++ List.replicate (48 - chall.length - ip.length) 0)
        (chall.length + ip.length) mac =
        chall ++ ip ++ mac ++
          List.replicate (48 - chall.length - ip.length - mac.length) 0 := by
      unfold write_bytes
      rw [show chall.length + ip.length = (chall ++ ip).length from by simp,
        List.take_left, List.drop_append, List.drop_replicate,
        List.append_assoc, List.append_assoc]
    have htake : (chall ++ ip ++ mac ++
        List.replicate (48 - chall.length - ip.length - mac.length) 0).take
          (max (chall.length + ip.length + mac.length) 32) =
        chall ++ ip ++ mac ++
          List.replicate (32 - (chall.length + ip.length + mac.length)) 0 := by
      by_cases h32 : 32 ≤ chall.length + ip.length + mac.length
      · rw [max_eq_left h32]
        rw [show (32 : Nat) - (chall.length + ip.length + mac.length) = 0 from
          by omega]
        rw [show chall.length + ip.length + mac.length =
          (chall ++ ip ++ mac).length from by simp; omega]
        rw [List.take_left]
        simp
      · rw [max_eq_right (by omega)]
        nth_rewrite 1 [show (32 : Nat) = (chall ++ ip ++ mac).length +
          (32 - (chall.length + ip.length + mac.length)) from by simp; omega]
        rw [List.take_append, List.take_replicate]
        rw [show min (32 - (chall.length + ip.length + mac.length))
          (48 - chall.length - ip.length - mac.length) =
          32 - (chall.length + ip.length + mac.length) from by omega]
    rw [hb1, hb2, hb3, htake, henc]
    rw [takeWhile_strips_padding core pads hcore hpads]

/-- Witness for C7 at a concrete challenge, IPv4 address, MAC and base64
rendering. -/
theorem C7_witness :
    (([10, 11, 12, 13] : List Nat).length = 4 ∨
        ([10, 11, 12, 13] : List Nat).length = 16) ∧
    ([1, 2, 3, 4, 5, 6] : List Nat).length = 6 ∧
    (fun _ : List Nat => "QUJD==".toList)
      ((fun l : List Nat => l)
        ([1, 2, 3] ++ [10, 11, 12, 13] ++ [1, 2, 3, 4, 5, 6] ++
          List.replicate (32 - (([1, 2, 3] : List Nat).length +
            ([10, 11, 12, 13] : List Nat).length +
            ([1, 2, 3, 4, 5, 6] : List Nat).length)) 0)) =
      "QUJD".toList ++ "==".toList ∧
    apple_challenge (fun l => l) (fun _ => "QUJD==".toList)
      [1, 2, 3] [10, 11, 12, 13] [1, 2, 3, 4, 5, 6] =
      (if 16 < ([1, 2, 3] : List Nat).length then none
       else some ("QUJD".toList)) :=
  ⟨by decide, by decide, by decide,
    C7_apple_challenge_layout (fun l => l) (fun _ => "QUJD==".toList)
      [1, 2, 3] [10, 11, 12, 13] [1, 2, 3, 4, 5, 6]
      ("QUJD".toList) ("==".toList) (by decide) (by decide) (by decide)
      (by decide) (by decide)⟩

end Rtsp
